import Mathlib

/-!
# Verification of the OpenPL voxelisation + FDTD propagation engine

A shallow embedding of `PL_SCENE.cpp` (OpenPL): the scene facade, the
voxeliser (`FillVoxels`), the mesh-ingestion transform
(`AddAndConvertGameMesh`), the asynchronous voxelise driver, the lattice
queries, and the FDTD kernel inside `PL_SCENE::Simulate`.

Modelling conventions:
* C++ `double`/`float` arithmetic is embedded over `ℚ` (exact arithmetic;
  the claims under scrutiny are structural, not about rounding).
* `std::vector<PLVoxel>` is a `List PLVoxel`; in-place element mutation is
  `List.set`; the triple-nested cell loops are left folds over the exact
  enumeration order of the C++ loops.
* Fallible operations return `Option` (`none` models undefined behaviour,
  e.g. indexing a `std::vector` out of range).
* Code not present under `src/` (the shared headers and consumed library
  interfaces) is modelled from the spec; each such definition carries a
  `Modelled from the spec:` note.
-/

set_option maxHeartbeats 1000000

/-- Result codes of the embedding API (`PL_RESULT`): `PL_OK`,
`PL_ERR_INVALID_PARAM` ("InvalidParam") and `PL_ERR` ("Generic"). -/
inductive PL_RESULT where
  | PL_OK
  | PL_ERR_INVALID_PARAM
  | PL_ERR
deriving DecidableEq, Repr

open PL_RESULT

/-- A 3-vector with rational coordinates (`PLVector` / `Eigen::Vector3d`). -/
structure Vec3 where
  x : ℚ
  y : ℚ
  z : ℚ
deriving DecidableEq, Repr

namespace Vec3

/-- Modelled from the spec: `PLVector()` default-constructs to the zero
vector (the header defining `PLVector` is not under `src/`). -/
def zero : Vec3 := ⟨0, 0, 0⟩

def add (a b : Vec3) : Vec3 := ⟨a.x + b.x, a.y + b.y, a.z + b.z⟩

def sub (a b : Vec3) : Vec3 := ⟨a.x - b.x, a.y - b.y, a.z - b.z⟩

/-- Componentwise (per-axis) product, used for non-uniform scale. -/
def hadamard (a b : Vec3) : Vec3 := ⟨a.x * b.x, a.y * b.y, a.z * b.z⟩

def smul (q : ℚ) (a : Vec3) : Vec3 := ⟨q * a.x, q * a.y, q * a.z⟩

def dot (a b : Vec3) : ℚ := a.x * b.x + a.y * b.y + a.z * b.z

/-- Componentwise `≤`, as a boolean (all three coordinates). -/
def allLe (a b : Vec3) : Bool :=
  decide (a.x ≤ b.x) && decide (a.y ≤ b.y) && decide (a.z ≤ b.z)

end Vec3

/-- A quaternion `(w,x,y,z)` (`PLQuaternion` / `Eigen::Quaterniond`). -/
structure PLQuaternion where
  w : ℚ
  x : ℚ
  y : ℚ
  z : ℚ
deriving DecidableEq, Repr

/-- A 3×3 matrix stored as three rows. -/
structure Mat3 where
  r0 : Vec3
  r1 : Vec3
  r2 : Vec3
deriving DecidableEq, Repr

namespace Mat3

def identity : Mat3 := ⟨⟨1, 0, 0⟩, ⟨0, 1, 0⟩, ⟨0, 0, 1⟩⟩

def mulVec (m : Mat3) (v : Vec3) : Vec3 :=
  ⟨m.r0.dot v, m.r1.dot v, m.r2.dot v⟩

/-- Column `j` of `m`. -/
def col0 (m : Mat3) : Vec3 := ⟨m.r0.x, m.r1.x, m.r2.x⟩

def col1 (m : Mat3) : Vec3 := ⟨m.r0.y, m.r1.y, m.r2.y⟩

def col2 (m : Mat3) : Vec3 := ⟨m.r0.z, m.r1.z, m.r2.z⟩

def mul (a b : Mat3) : Mat3 :=
  ⟨⟨a.r0.dot b.col0, a.r0.dot b.col1, a.r0.dot b.col2⟩,
   ⟨a.r1.dot b.col0, a.r1.dot b.col1, a.r1.dot b.col2⟩,
   ⟨a.r2.dot b.col0, a.r2.dot b.col1, a.r2.dot b.col2⟩⟩

/-- `m * diag(s)`: scale column `j` by the `j`-th component of `s`. -/
def mulDiag (m : Mat3) (s : Vec3) : Mat3 :=
  ⟨⟨m.r0.x * s.x, m.r0.y * s.y, m.r0.z * s.z⟩,
   ⟨m.r1.x * s.x, m.r1.y * s.y, m.r1.z * s.z⟩,
   ⟨m.r2.x * s.x, m.r2.y * s.y, m.r2.z * s.z⟩⟩

end Mat3

/-- `Eigen::Quaterniond::toRotationMatrix()`: the standard rotation matrix
of a (unit) quaternion, exactly as Eigen computes it. -/
def quatToRotationMatrix (q : PLQuaternion) : Mat3 :=
  ⟨⟨1 - 2 * (q.y * q.y + q.z * q.z), 2 * (q.x * q.y - q.z * q.w), 2 * (q.x * q.z + q.y * q.w)⟩,
   ⟨2 * (q.x * q.y + q.z * q.w), 1 - 2 * (q.x * q.x + q.z * q.z), 2 * (q.y * q.z - q.x * q.w)⟩,
   ⟨2 * (q.x * q.z - q.y * q.w), 2 * (q.y * q.z + q.x * q.w), 1 - 2 * (q.x * q.x + q.y * q.y)⟩⟩

/-- Apply the rotation of quaternion `q` to vector `v`. -/
def quatRotate (q : PLQuaternion) (v : Vec3) : Vec3 :=
  (quatToRotationMatrix q).mulVec v

/-- `Eigen::Transform<double,3,Affine>`: a linear part plus a translation;
`p ↦ linear * p + translation`. -/
structure EigenAffine where
  linear : Mat3
  translation : Vec3
deriving DecidableEq, Repr

namespace EigenAffine

/-- `Eigen::Transform::Identity()`. -/
def identity : EigenAffine := ⟨Mat3.identity, Vec3.zero⟩

/-- `t.rotate(q)`: post-multiplies by the rotation (`M := M * R`). -/
def rotate (t : EigenAffine) (q : PLQuaternion) : EigenAffine :=
  ⟨t.linear.mul (quatToRotationMatrix q), t.translation⟩

/-- `t.translate(p)`: post-multiplies by the translation
(`M := M * T(p)`, so the stored translation becomes `translation + linear * p`). -/
def translate (t : EigenAffine) (p : Vec3) : EigenAffine :=
  ⟨t.linear, t.translation.add (t.linear.mulVec p)⟩

/-- `t.scale(s)`: post-multiplies by the diagonal scale (`M := M * diag(s)`). -/
def scale (t : EigenAffine) (s : Vec3) : EigenAffine :=
  ⟨t.linear.mulDiag s, t.translation⟩

/-- Apply the affine transform to a point (homogeneous application). -/
def apply (t : EigenAffine) (v : Vec3) : Vec3 :=
  (t.linear.mulVec v).add t.translation

end EigenAffine

/-- `Eigen::AlignedBox<double,3>`: an axis-aligned box `[lo, hi]`. -/
structure AABB where
  lo : Vec3
  hi : Vec3
deriving DecidableEq, Repr

/-- `Eigen::AlignedBox::intersects(b)`:
`(min ≤ b.max).all() && (b.min ≤ max).all()` — inclusive, touching faces
count as intersecting. -/
def aabbIntersects (a b : AABB) : Bool :=
  a.lo.allLe b.hi && b.lo.allLe a.hi

/-- One lattice cell (`PLVoxel`): world-space centre, rigidity `beta`,
wall `absorptivity`, pressure and the three staggered particle-velocity
components. -/
structure PLVoxel where
  worldPosition : Vec3
  beta : ℚ
  absorptivity : ℚ
  airPressure : ℚ
  particleVelocityX : ℚ
  particleVelocityY : ℚ
  particleVelocityZ : ℚ
deriving DecidableEq, Repr

/-- Modelled from the spec: `PLVoxel()` value-initialises every field to
zero (the header defining `PLVoxel` is not under `src/`; the spec calls the
out-of-range neighbour a "zero-initialised ghost"). -/
def defaultPLVoxel : PLVoxel := ⟨Vec3.zero, 0, 0, 0, 0, 0, 0⟩

/-- A triangle mesh (`PL_MESH`): transformed vertex columns and index
columns (one triple per triangle). -/
structure PL_MESH where
  vertices : List Vec3
  indices : List (ℤ × ℤ × ℤ)
deriving DecidableEq, Repr

/-- The voxel lattice (`PL_VOXEL_GRID`): bounds, per-axis cell counts
`(X,Y,Z)`, cell edge length and the flat cell vector. -/
structure PL_VOXEL_GRID where
  bounds : AABB
  size : ℕ × ℕ × ℕ
  voxelSize : ℚ
  voxels : List PLVoxel
deriving DecidableEq, Repr

/-- Status flag of the voxeliser worker thread. -/
inductive ThreadStatus where
  | notStarted
  | ongoing
  | finished
deriving DecidableEq, Repr

/-- The scene facade state (`PL_SCENE`): mesh list, listener and source
location lists, the lattice, and the worker's status/handle.
The retained `(cell × time)` simulation history matrix is not modelled
(no claim reads it); the snapshot sub-step of the kernel does not change
the lattice. -/
structure PL_SCENE where
  meshes : List PL_MESH
  listenerLocations : List Vec3
  sourceLocations : List Vec3
  voxels : PL_VOXEL_GRID
  voxelThreadStatus : ThreadStatus
  voxelThreadJoinable : Bool
deriving DecidableEq, Repr

/-- Read the voxel at flat index `i` (vector indexing; callers in the code
only index in range). -/
def getVox (l : List PLVoxel) (i : ℕ) : PLVoxel := l.getD i defaultPLVoxel

/-- Modelled from the spec: the flat lexicographic index mapping
`(x,y,z) ↦ x + y·X + z·X·Y` (`ThreeDimToOneDim` lives in a shared header
that is not under `src/`; the spec states this exact formula). -/
def threeDimToOneDim (x y z xSize ySize : ℕ) : ℕ :=
  x + y * xSize + z * xSize * ySize

/-! ## List indexing helper lemmas -/

theorem getD_set_self {α : Type} (l : List α) (i : ℕ) (a d : α)
    (h : i < l.length) : (l.set i a).getD i d = a := by
  induction l generalizing i with
  | nil => simp at h
  | cons b t ih =>
    cases i with
    | zero => simp [List.getD]
    | succ n =>
      simp only [List.set, List.getD, List.getElem?_cons_succ]
      exact ih n (by simpa using h)

theorem getD_set_ne {α : Type} (l : List α) {i j : ℕ} (a d : α)
    (h : i ≠ j) : (l.set i a).getD j d = l.getD j d := by
  induction l generalizing i j with
  | nil => simp
  | cons b t ih =>
    cases i with
    | zero =>
      cases j with
      | zero => exact absurd rfl h
      | succ m => simp [List.getD]
    | succ n =>
      cases j with
      | zero => simp [List.getD]
      | succ m =>
        simp only [List.set, List.getD, List.getElem?_cons_succ]
        exact ih (fun hnm => h (by rw [hnm]))

theorem getD_map_lt {α β : Type} (f : α → β) (l : List α) (i : ℕ) (d : α) (d' : β)
    (h : i < l.length) : (l.map f).getD i d' = f (l.getD i d) := by
  induction l generalizing i with
  | nil => simp at h
  | cons b t ih =>
    cases i with
    | zero => simp [List.getD]
    | succ n =>
      simp only [List.map, List.getD, List.getElem?_cons_succ]
      exact ih n (by simpa using h)

theorem getD_mem_of_lt {α : Type} (l : List α) (i : ℕ) (d : α)
    (h : i < l.length) : l.getD i d ∈ l := by
  induction l generalizing i with
  | nil => simp at h
  | cons b t ih =>
    cases i with
    | zero => simp [List.getD]
    | succ n =>
      simp only [List.getD, List.getElem?_cons_succ]
      exact List.mem_cons_of_mem _ (ih n (by simpa using h))

/-! ## Arithmetic facts about the flat index mapping -/

theorem threeDimToOneDim_lt {x y z X Y Z : ℕ}
    (hx : x < X) (hy : y < Y) (hz : z < Z) :
    threeDimToOneDim x y z X Y < X * Y * Z := by
  unfold threeDimToOneDim
  have h1 : x + y * X + z * X * Y = x + X * (y + Y * z) := by ring
  rw [h1]
  have h2 : y + Y * z < Y * Z := by
    calc y + Y * z < Y + Y * z := by omega
    _ = Y * (z + 1) := by ring
    _ ≤ Y * Z := Nat.mul_le_mul_left Y hz
  calc x + X * (y + Y * z) < X + X * (y + Y * z) := by omega
  _ = X * (y + Y * z + 1) := by ring
  _ ≤ X * (Y * Z) := Nat.mul_le_mul_left X h2
  _ = X * Y * Z := by ring

theorem threeDimToOneDim_inj {x y z x' y' z' X Y : ℕ}
    (hx : x < X) (hy : y < Y) (hx' : x' < X) (hy' : y' < Y)
    (h : threeDimToOneDim x y z X Y = threeDimToOneDim x' y' z' X Y) :
    x = x' ∧ y = y' ∧ z = z' := by
  unfold threeDimToOneDim at h
  have hX : 0 < X := Nat.lt_of_le_of_lt (Nat.zero_le x) hx
  have h1 : x + X * (y + Y * z) = x' + X * (y' + Y * z') := by
    have e1 : x + y * X + z * X * Y = x + X * (y + Y * z) := by ring
    have e2 : x' + y' * X + z' * X * Y = x' + X * (y' + Y * z') := by ring
    rw [e1, e2] at h; exact h
  have hxx : x = x' := by
    have m1 : (x + X * (y + Y * z)) % X = x := by
      rw [Nat.add_mul_mod_self_left]; exact Nat.mod_eq_of_lt hx
    have m2 : (x' + X * (y' + Y * z')) % X = x' := by
      rw [Nat.add_mul_mod_self_left]; exact Nat.mod_eq_of_lt hx'
    rw [← m1, ← m2, h1]
  subst hxx
  have h2 : y + Y * z = y' + Y * z' := by
    have := Nat.add_left_cancel h1
    exact Nat.eq_of_mul_eq_mul_left (by omega) this
  have hyy : y = y' := by
    have m1 : (y + Y * z) % Y = y := by
      rw [Nat.add_mul_mod_self_left]; exact Nat.mod_eq_of_lt hy
    have m2 : (y' + Y * z') % Y = y' := by
      rw [Nat.add_mul_mod_self_left]; exact Nat.mod_eq_of_lt hy'
    rw [← m1, ← m2, h2]
  subst hyy
  have h3 : z = z' := by
    have := Nat.add_left_cancel h2
    exact Nat.eq_of_mul_eq_mul_left (by omega) this
  exact ⟨rfl, rfl, h3⟩

/-! ## FDTD kernel (`PL_SCENE::Simulate`)

The triple-nested cell loops of the kernel are folds over `cellTriples`
(resp. `cellTriplesFromX1`), which enumerate `(x,y,z)` in exactly the C++
loop order: `x` outermost, then `y`, then `z` innermost. -/

/-- All loop triples `(x,y,z)` with `x < X`, `y < Y`, `z < Z`, in C++ loop
order. -/
def cellTriples (X Y Z : ℕ) : List (ℕ × ℕ × ℕ) :=
  (List.range X) ×ˢ ((List.range Y) ×ˢ (List.range Z))

/-- Loop triples of the X-velocity pass: `x` runs from `1` (interior along
X), `y` and `z` over the whole extent. -/
def cellTriplesFromX1 (X Y Z : ℕ) : List (ℕ × ℕ × ℕ) :=
  (List.range' 1 (X - 1)) ×ˢ ((List.range Y) ×ˢ (List.range Z))

/-- The new value of cell `(x,y,z)` in the pressure sub-step: ghost-zero
neighbours past the lattice edge, divergence of the staggered velocities,
`P ← β·(P − K·div)` (lines 506–514 of `PL_SCENE.cpp`). -/
def pressureCellValue (K : ℚ) (X Y Z : ℕ) (vox : List PLVoxel)
    (x y z : ℕ) : PLVoxel :=
  let currentVoxel := getVox vox (threeDimToOneDim x y z X Y)
  let nextVoxelX := if X ≤ x + 1 then defaultPLVoxel else
    getVox vox (threeDimToOneDim (x + 1) y z X Y)
  let nextVoxelY := if Y ≤ y + 1 then defaultPLVoxel else
    getVox vox (threeDimToOneDim x (y + 1) z X Y)
  let nextVoxelZ := if Z ≤ z + 1 then defaultPLVoxel else
    getVox vox (threeDimToOneDim x y (z + 1) X Y)
  let beta := currentVoxel.beta
  let divergance :=
    (nextVoxelX.particleVelocityX - currentVoxel.particleVelocityX)
      + (nextVoxelY.particleVelocityY - currentVoxel.particleVelocityY)
      + nextVoxelZ.particleVelocityZ - currentVoxel.particleVelocityZ
  { currentVoxel with
      airPressure := beta * (currentVoxel.airPressure - K * divergance) }

/-- One in-place write of the pressure loop body. -/
def pressureCellUpdate (K : ℚ) (X Y Z : ℕ) (vox : List PLVoxel)
    (x y z : ℕ) : List PLVoxel :=
  vox.set (threeDimToOneDim x y z X Y) (pressureCellValue K X Y Z vox x y z)

/-- The whole pressure sub-step: the sequential triple loop over all cells. -/
def pressureStep (K : ℚ) (X Y Z : ℕ) (vox : List PLVoxel) : List PLVoxel :=
  (cellTriples X Y Z).foldl
    (fun v t => pressureCellUpdate K X Y Z v t.1 t.2.1 t.2.2) vox

/-- The new value of cell `(x,y,z)` in the X-velocity sub-step (lines
528–548 of `PL_SCENE.cpp`): admittances `Y = (1−α)/(1+α)` on both sides,
air update `V − K·grad`, wall update, blended by the `β` products. -/
def velocityCellValueX (K : ℚ) (X Y : ℕ) (vox : List PLVoxel)
    (x y z : ℕ) : PLVoxel :=
  let previousVoxel := getVox vox (threeDimToOneDim (x - 1) y z X Y)
  let betaNext := previousVoxel.beta
  let absorptionNext := previousVoxel.absorptivity
  let yNext := (1 - absorptionNext) / (1 + absorptionNext)
  let currentVoxel := getVox vox (threeDimToOneDim x y z X Y)
  let betaThis := currentVoxel.beta
  let absorptionThis := currentVoxel.absorptivity
  let yThis := (1 - absorptionThis) / (1 + absorptionThis)
  let gradientX := currentVoxel.airPressure - previousVoxel.airPressure
  let airCellUpdate := currentVoxel.particleVelocityX - K * gradientX
  let yBoundary := betaThis * yNext + betaNext * yThis
  let wallCellUpdate :=
    yBoundary * (previousVoxel.airPressure * betaNext
      + currentVoxel.airPressure * betaThis)
  { currentVoxel with
      particleVelocityX :=
        betaThis * betaNext * airCellUpdate
          + (betaNext - betaThis) * wallCellUpdate }

/-- One in-place write of the X-velocity loop body. -/
def velocityCellUpdateX (K : ℚ) (X Y : ℕ) (vox : List PLVoxel)
    (x y z : ℕ) : List PLVoxel :=
  vox.set (threeDimToOneDim x y z X Y) (velocityCellValueX K X Y vox x y z)

/-- The whole X-velocity sub-step: `x` from `1`, `y` and `z` from `0`.
This is the only velocity component the shipped `PL_SCENE::Simulate`
updates — the Y- and Z-velocity blocks (lines 554–620) are commented out. -/
def velocityStepX (K : ℚ) (X Y Z : ℕ) (vox : List PLVoxel) : List PLVoxel :=
  (cellTriplesFromX1 X Y Z).foldl
    (fun v t => velocityCellUpdateX K X Y v t.1 t.2.1 t.2.2) vox

/-- The Y-velocity sub-step exactly as it appears commented out in
`PL_SCENE.cpp` lines 554–586 (the Y analogue of `velocityCellValueX`,
with `prev = cell[y-1]` and the write going to `ParticleVelocityY`).
The shipped kernel never runs it; it is embedded to state what the spec
mandates and the code omits. -/
def velocityCellValueYCommented (K : ℚ) (X Y : ℕ) (vox : List PLVoxel)
    (x y z : ℕ) : PLVoxel :=
  let previousVoxel := getVox vox (threeDimToOneDim x (y - 1) z X Y)
  let betaNext := previousVoxel.beta
  let absorptionNext := previousVoxel.absorptivity
  let yNext := (1 - absorptionNext) / (1 + absorptionNext)
  let currentVoxel := getVox vox (threeDimToOneDim x y z X Y)
  let betaThis := currentVoxel.beta
  let absorptionThis := currentVoxel.absorptivity
  let yThis := (1 - absorptionThis) / (1 + absorptionThis)
  let gradientY := currentVoxel.airPressure - previousVoxel.airPressure
  let airCellUpdate := currentVoxel.particleVelocityY - K * gradientY
  let yBoundary := betaThis * yNext + betaNext * yThis
  let wallCellUpdate :=
    yBoundary * (previousVoxel.airPressure * betaNext
      + currentVoxel.airPressure * betaThis)
  { currentVoxel with
      particleVelocityY :=
        betaThis * betaNext * airCellUpdate
          + (betaNext - betaThis) * wallCellUpdate }

/-- The commented-out Y-velocity loop: `x`, `z` over the whole extent,
`y` from `1`. -/
def velocityStepYCommented (K : ℚ) (X Y Z : ℕ) (vox : List PLVoxel) :
    List PLVoxel :=
  ((List.range X) ×ˢ ((List.range' 1 (Y - 1)) ×ˢ (List.range Z))).foldl
    (fun v t =>
      v.set (threeDimToOneDim t.1 t.2.1 t.2.2 X Y)
        (velocityCellValueYCommented K X Y v t.1 t.2.1 t.2.2)) vox

/-- The pulse-injection line `Voxels.Voxels[0].AirPressure += Pulse[t]`
(line 640 of `PL_SCENE.cpp`): the pulse sample is added to the pressure of
the cell at flat index `0`. -/
def addPulse (p : ℚ) (vox : List PLVoxel) : List PLVoxel :=
  vox.set 0 { getVox vox 0 with airPressure := (getVox vox 0).airPressure + p }

/-- One time step of `PL_SCENE::Simulate` (lines 496–641): pressure
sub-step, X-velocity sub-step (Y/Z and the absorbing-face pass are
commented out in the source), response snapshot (which does not change the
lattice and is not modelled), then pulse injection at cell `0`.
Injecting into an empty lattice indexes `std::vector` out of range
(undefined behaviour), modelled as `none`. -/
def simulateStep (K : ℚ) (pulse : ℕ → ℚ) (X Y Z : ℕ) (t : ℕ)
    (vox : List PLVoxel) : Option (List PLVoxel) :=
  let afterPressure := pressureStep K X Y Z vox
  let afterVelocity := velocityStepX K X Y Z afterPressure
  if afterVelocity.length = 0 then none
  else some (addPulse (pulse t) afterVelocity)

/-- The per-voxel reset at the top of `Simulate` (lines 486–492):
pressure and all velocity components to zero. -/
def resetVoxel (v : PLVoxel) : PLVoxel :=
  { v with airPressure := 0, particleVelocityX := 0,
           particleVelocityY := 0, particleVelocityZ := 0 }

/-- `PL_SCENE::Simulate` (lines 444–647).  The commented-out precondition
checks at lines 446–451 are absent, so no scene state is rejected; the
function joins the worker, resets the lattice, runs `timeSteps` kernel
steps and returns `PL_OK`.  `timeSteps` and the pulse samples are
parameters: `TimeSteps` is a member declared in a header that is not under
`src/`, and the Gaussian pulse samples are transcendental
(`exp`-valued, see `GaussianPulse`), so the kernel is stated for an
arbitrary pulse sequence. -/
def simulate (timeSteps : ℕ) (K : ℚ) (pulse : ℕ → ℚ) (s : PL_SCENE) :
    Option (PL_RESULT × PL_SCENE) :=
  let X := s.voxels.size.1
  let Y := s.voxels.size.2.1
  let Z := s.voxels.size.2.2
  let v0 := s.voxels.voxels.map resetVoxel
  match (List.range timeSteps).foldlM
      (fun v t => simulateStep K pulse X Y Z t v) v0 with
  | none => none
  | some vT =>
      some (PL_OK,
        { s with voxels := { s.voxels with voxels := vT },
                 voxelThreadJoinable := false })

/-! ## Mesh ingestion (`PL_SCENE::AddAndConvertGameMesh`) -/

/-- The transform built at lines 63–64 of `PL_SCENE.cpp`:
`Transform = Identity(); Transform.rotate(Rotation).translate(Translation).scale(Scale)`.
Each Eigen call post-multiplies, so the resulting map is
`v ↦ R·(T·(S·v))`, i.e. scale first, then translate, then rotate. -/
def meshTransform (p : Vec3) (q : PLQuaternion) (s : Vec3) : EigenAffine :=
  ((EigenAffine.identity.rotate q).translate p).scale s

/-- The world-space position of one input vertex after the ingestion
transform (line 75: `TransformedVertices = Transform * homogeneous`). -/
def transformVertex (p : Vec3) (q : PLQuaternion) (s : Vec3) (v : Vec3) :
    Vec3 :=
  (meshTransform p q s).apply v

/-- Written from the spec sentence of C4 for comparison with the code:
"each stored vertex equals `P + R(Q)·(S ∘ v)`", i.e. the matrix order
`translate(P) · rotate(Q) · scale(S)`. -/
def claimTransformVertex (p : Vec3) (q : PLQuaternion) (s : Vec3)
    (v : Vec3) : Vec3 :=
  (quatRotate q (s.hadamard v)).add p

/-- The index-copy loop at lines 80–88: pack consecutive index triples
into columns. -/
def chunk3 : List ℤ → List (ℤ × ℤ × ℤ)
  | a :: b :: c :: rest => (a, b, c) :: chunk3 rest
  | _ => []

/-- `PL_SCENE::AddAndConvertGameMesh` (lines 29–100): validation (null
pointers are not representable for `List` inputs; fewer than 4 vertices,
fewer than 4 indices, or an index count that is not a multiple of 3 are
rejected with `PL_ERR_INVALID_PARAM`), then the vertex transform and the
index copy.  On success the mesh is appended to the scene and its index
(the previous list length) is returned. -/
def addAndConvertGameMesh (s : PL_SCENE) (worldPosition : Vec3)
    (worldRotation : PLQuaternion) (worldScale : Vec3)
    (vertices : List Vec3) (indices : List ℤ) :
    PL_RESULT × PL_SCENE × Option ℕ :=
  if vertices.length ≤ 3 then (PL_ERR_INVALID_PARAM, s, none)
  else if indices.length ≤ 3 then (PL_ERR_INVALID_PARAM, s, none)
  else if indices.length % 3 ≠ 0 then (PL_ERR_INVALID_PARAM, s, none)
  else
    let mesh : PL_MESH :=
      { vertices :=
          vertices.map (transformVertex worldPosition worldRotation worldScale),
        indices := chunk3 indices }
    (PL_OK, { s with meshes := s.meshes ++ [mesh] }, some s.meshes.length)

/-! ## Voxeliser (`GetPointsToCheckForVoxel`, `PL_SCENE::FillVoxels`) -/

/-- `GetPointsToCheckForVoxel` (lines 268–319): the cell centre plus the
eight corner points offset by `±h/2` on each axis, in source order
(`HalfSize = VoxelSize.x() / 2`). -/
def getPointsToCheckForVoxel (voxelPosition : Vec3) (voxelSize : Vec3) :
    List Vec3 :=
  let halfSize := voxelSize.x / 2
  [⟨voxelPosition.x, voxelPosition.y, voxelPosition.z⟩,
   ⟨voxelPosition.x + halfSize, voxelPosition.y + halfSize, voxelPosition.z - halfSize⟩,
   ⟨voxelPosition.x + halfSize, voxelPosition.y + halfSize, voxelPosition.z + halfSize⟩,
   ⟨voxelPosition.x - halfSize, voxelPosition.y + halfSize, voxelPosition.z - halfSize⟩,
   ⟨voxelPosition.x - halfSize, voxelPosition.y + halfSize, voxelPosition.z + halfSize⟩,
   ⟨voxelPosition.x + halfSize, voxelPosition.y - halfSize, voxelPosition.z - halfSize⟩,
   ⟨voxelPosition.x + halfSize, voxelPosition.y - halfSize, voxelPosition.z + halfSize⟩,
   ⟨voxelPosition.x - halfSize, voxelPosition.y - halfSize, voxelPosition.z - halfSize⟩,
   ⟨voxelPosition.x - halfSize, voxelPosition.y - halfSize, voxelPosition.z + halfSize⟩]

/-- Per-row minimum of the vertex matrix (`Vertices.rowwise().minCoeff()`);
the meshes the engine builds always have at least four vertices. -/
def meshMinCoeff : List Vec3 → Vec3
  | [] => Vec3.zero
  | v :: rest => rest.foldl (fun a b => ⟨min a.x b.x, min a.y b.y, min a.z b.z⟩) v

/-- Per-row maximum of the vertex matrix (`Vertices.rowwise().maxCoeff()`). -/
def meshMaxCoeff : List Vec3 → Vec3
  | [] => Vec3.zero
  | v :: rest => rest.foldl (fun a b => ⟨max a.x b.x, max a.y b.y, max a.z b.z⟩) v

/-- The AABB enclosing a mesh (lines 345–347). -/
def meshAABB (m : PL_MESH) : AABB :=
  ⟨meshMinCoeff m.vertices, meshMaxCoeff m.vertices⟩

/-- The candidate test of the cell-collection loop (lines 363–380): the
cell's cube (centre `± h/2`) against the mesh AABB.  The source tests
`MeshBounds.intersects(VoxelBounds)` and, in the `else` branch,
`VoxelBounds.intersects(MeshBounds)`; `intersects` is symmetric, so the
`else` branch is dead and the test is a single intersection. -/
def voxelIsCandidate (meshBounds : AABB) (voxelSize : ℚ) (cell : PLVoxel) :
    Bool :=
  let half : Vec3 := ⟨voxelSize / 2, voxelSize / 2, voxelSize / 2⟩
  let voxelBounds : AABB :=
    ⟨cell.worldPosition.sub half, cell.worldPosition.add half⟩
  aabbIntersects meshBounds voxelBounds || aabbIntersects voxelBounds meshBounds

/-- Count of the nine sample points flagged inside the mesh, with the
point-inside test abstracted (see `fillVoxels`). -/
def numberOfPointsInside (insideTest : PL_MESH → Vec3 → Bool) (m : PL_MESH)
    (voxelSize : ℚ) (cell : PLVoxel) : ℕ :=
  (getPointsToCheckForVoxel cell.worldPosition
      ⟨voxelSize, voxelSize, voxelSize⟩).countP (insideTest m)

/-- The marking write at lines 412–416: `Absorptivity = 0.75f; Beta = 0`. -/
def markSolid (cell : PLVoxel) : PLVoxel :=
  { cell with absorptivity := 3 / 4, beta := 0 }

/-- The body of the per-mesh loop of `FillVoxels` (lines 342–418): skip
the mesh if its AABB misses the lattice bounds; collect candidate cells;
if none, warn and skip; otherwise mark every candidate with more than two
of its nine sample points inside. -/
def fillVoxelsMesh (insideTest : PL_MESH → Vec3 → Bool) (latticeBounds : AABB)
    (voxelSize : ℚ) (vox : List PLVoxel) (m : PL_MESH) : List PLVoxel :=
  let meshBounds := meshAABB m
  if ¬ aabbIntersects latticeBounds meshBounds then vox
  else if vox.all (fun c => ¬ voxelIsCandidate meshBounds voxelSize c) then vox
  else
    vox.map (fun cell =>
      if voxelIsCandidate meshBounds voxelSize cell then
        if 2 < numberOfPointsInside insideTest m voxelSize cell then
          markSolid cell
        else cell
      else cell)

/-- `PL_SCENE::FillVoxels` (lines 321–423).  The initial pass (lines
337–340) sets `Beta = 1` on every cell — and only `Beta`; `Absorptivity`
is left untouched.  The per-point occupancy oracle
(`igl::copyleft::cgal::points_inside_component`, a consumed library
interface not under `src/`) is abstracted as the `insideTest` parameter.
The status store at line 420 is a scene-level effect handled by the
driver model. -/
def fillVoxels (insideTest : PL_MESH → Vec3 → Bool) (meshes : List PL_MESH)
    (g : PL_VOXEL_GRID) : PL_VOXEL_GRID :=
  let initialised := g.voxels.map (fun v => { v with beta := 1 })
  { g with
      voxels :=
        meshes.foldl (fillVoxelsMesh insideTest g.bounds g.voxelSize)
          initialised }

/-! ## Scene facade: list mutators, async driver, lattice queries -/

/-- `PL_SCENE::RemoveMesh` (lines 109–113): `Meshes.erase(begin()+Index)`
with **no** bounds check — an out-of-range index is undefined behaviour
(`none`). -/
def removeMesh (s : PL_SCENE) (index : ℤ) : Option (PL_RESULT × PL_SCENE) :=
  if 0 ≤ index ∧ index < (s.meshes.length : ℤ) then
    some (PL_OK, { s with meshes := s.meshes.eraseIdx index.toNat })
  else none

/-- `PL_SCENE::RemoveListenerLocation` (lines 122–131): the C++ comparison
`Index >= ListenerLocations.size()` converts the signed index to
`size_t`, so a negative index also takes the error branch. -/
def removeListenerLocation (s : PL_SCENE) (index : ℤ) :
    PL_RESULT × PL_SCENE :=
  if index < 0 ∨ (s.listenerLocations.length : ℤ) ≤ index then (PL_ERR, s)
  else
    (PL_OK,
      { s with listenerLocations := s.listenerLocations.eraseIdx index.toNat })

/-- `PL_SCENE::RemoveSourceLocation` (lines 140–149), same shape as the
listener removal. -/
def removeSourceLocation (s : PL_SCENE) (index : ℤ) :
    PL_RESULT × PL_SCENE :=
  if index < 0 ∨ (s.sourceLocations.length : ℤ) ≤ index then (PL_ERR, s)
  else
    (PL_OK,
      { s with sourceLocations := s.sourceLocations.eraseIdx index.toNat })

/-- `PL_SCENE::Voxelise` (lines 220–266).  Returns, besides the result
code and the new scene state, whether a voxelisation worker was spawned.
In the `NotStarted` branch the spawned worker's first action is
`VoxelThreadStatus.store(Ongoing)` (line 724 of `VoxeliseInternal`); the
caller-side function itself leaves the status field alone, which is how it
is modelled here.  In the `Finished` branch the worker is joined and the
status reset — and no new worker is spawned. -/
def voxelise (s : PL_SCENE) (size : Vec3) (voxelSize : ℚ) :
    PL_RESULT × PL_SCENE × Bool :=
  if s.meshes.length = 0 then (PL_ERR, s, false)
  else if size.x < voxelSize ∨ size.y < voxelSize ∨ size.z < voxelSize then
    (PL_ERR_INVALID_PARAM, s, false)
  else
    match s.voxelThreadStatus with
    | ThreadStatus.notStarted =>
        (PL_OK, { s with voxelThreadJoinable := true }, true)
    | ThreadStatus.ongoing => (PL_OK, s, false)
    | ThreadStatus.finished =>
        (PL_OK,
          { s with voxelThreadStatus := ThreadStatus.notStarted,
                   voxelThreadJoinable := false }, false)

/-- `PL_SCENE::GetVoxelsCount` (lines 649–665), for a valid out-pointer:
while the voxeliser is `Ongoing` the out-value is zero with `PL_OK`;
otherwise the stored lattice's cell count is returned. -/
def getVoxelsCount (s : PL_SCENE) : PL_RESULT × Option ℕ :=
  if s.voxelThreadStatus = ThreadStatus.ongoing then (PL_OK, some 0)
  else (PL_OK, some s.voxels.voxels.length)

/-- `PL_SCENE::GetVoxelLocation` (lines 667–697), for a valid out-pointer:
the `Ongoing` early-out precedes the index validation; a negative index is
`PL_ERR_INVALID_PARAM`; an index at or past the cell count is `PL_ERR`.
`none` models an unwritten out-parameter. -/
def getVoxelLocation (s : PL_SCENE) (index : ℤ) : PL_RESULT × Option Vec3 :=
  if s.voxelThreadStatus = ThreadStatus.ongoing then (PL_OK, some Vec3.zero)
  else if index < 0 then (PL_ERR_INVALID_PARAM, none)
  else if (s.voxels.voxels.length : ℤ) ≤ index then (PL_ERR, none)
  else (PL_OK, some (getVox s.voxels.voxels index.toNat).worldPosition)

/-- `PL_SCENE::GetVoxelAbsorpivity` (lines 699–720), for a valid
out-pointer: here the index validation precedes the `Ongoing` early-out
(the opposite order to `GetVoxelLocation`). -/
def getVoxelAbsorpivity (s : PL_SCENE) (index : ℤ) : PL_RESULT × Option ℚ :=
  if index < 0 then (PL_ERR_INVALID_PARAM, none)
  else if (s.voxels.voxels.length : ℤ) ≤ index then (PL_ERR, none)
  else if s.voxelThreadStatus = ThreadStatus.ongoing then (PL_OK, some 0)
  else (PL_OK, some (getVox s.voxels.voxels index.toNat).absorptivity)

/-! ## Concrete scenes, grids and pulses used as test inputs -/

/-- The all-zero pulse sequence. -/
def zeroPulse : ℕ → ℚ := fun _ => 0

/-- The all-ones pulse sequence. -/
def onesPulse : ℕ → ℚ := fun _ => 1

/-- A degenerate empty lattice (the state of `Voxels` before any
voxelisation). -/
def emptyGrid : PL_VOXEL_GRID :=
  { bounds := ⟨Vec3.zero, Vec3.zero⟩, size := (0, 0, 0), voxelSize := 0,
    voxels := [] }

/-- A small already-ingested tetrahedron mesh. -/
def sampleMesh : PL_MESH :=
  { vertices := [⟨0, 0, 0⟩, ⟨1, 0, 0⟩, ⟨0, 1, 0⟩, ⟨0, 0, 1⟩],
    indices := [(0, 1, 2), (0, 1, 3)] }

/-- A freshly constructed scene: no meshes, no locations, no lattice. -/
def freshScene : PL_SCENE :=
  { meshes := [], listenerLocations := [], sourceLocations := [],
    voxels := emptyGrid, voxelThreadStatus := ThreadStatus.notStarted,
    voxelThreadJoinable := false }

/-- An air voxel centred at `pos` with pressure `p`. -/
def airVoxelAt (pos : Vec3) (p : ℚ) : PLVoxel :=
  { worldPosition := pos, beta := 1, absorptivity := 0, airPressure := p,
    particleVelocityX := 0, particleVelocityY := 0, particleVelocityZ := 0 }

/-- C1 failing input: a `1 × 2 × 1` all-air lattice whose cell `(0,0,0)`
holds pressure `1` and cell `(0,1,0)` pressure `0` — a pure Y-gradient. -/
def c1Vox : List PLVoxel := [airVoxelAt ⟨0, 0, 0⟩ 1, airVoxelAt ⟨0, 1, 0⟩ 0]

/-- C2 failing input: a `2 × 1 × 1` all-air lattice with the single
registered source location at the centre of cell `1`. -/
def c2Scene : PL_SCENE :=
  { meshes := [sampleMesh], listenerLocations := [],
    sourceLocations := [⟨1, 0, 0⟩],
    voxels := { bounds := ⟨⟨-1/2, -1/2, -1/2⟩, ⟨3/2, 1/2, 1/2⟩⟩,
                size := (2, 1, 1), voxelSize := 1,
                voxels := [airVoxelAt ⟨0, 0, 0⟩ 0, airVoxelAt ⟨1, 0, 0⟩ 0] },
    voxelThreadStatus := ThreadStatus.finished, voxelThreadJoinable := false }

/-- C3 counterexample input: a one-cell lattice whose cell already carries
absorptivity `3/4` (e.g. left over from a previous marking), with no
meshes to process. -/
def c3Grid : PL_VOXEL_GRID :=
  { bounds := ⟨⟨-1/2, -1/2, -1/2⟩, ⟨1/2, 1/2, 1/2⟩⟩, size := (1, 1, 1),
    voxelSize := 1,
    voxels := [{ worldPosition := ⟨0, 0, 0⟩, beta := 0, absorptivity := 3/4,
                 airPressure := 0, particleVelocityX := 0,
                 particleVelocityY := 0, particleVelocityZ := 0 }] }

/-- An occupancy oracle that flags no point inside. -/
def noneInside : PL_MESH → Vec3 → Bool := fun _ _ => false

/-- An occupancy oracle that flags every point inside. -/
def allInside : PL_MESH → Vec3 → Bool := fun _ _ => true

/-- C3 witness input: a one-cell air lattice. -/
def c3WitnessGrid : PL_VOXEL_GRID :=
  { bounds := ⟨⟨-1/2, -1/2, -1/2⟩, ⟨1/2, 1/2, 1/2⟩⟩, size := (1, 1, 1),
    voxelSize := 1, voxels := [airVoxelAt ⟨0, 0, 0⟩ 0] }

/-- C4 inputs: a unit quaternion `(w,x,y,z) = (3/5, 0, 0, 4/5)` (a
rotation about Z), translation `(1,0,0)`, identity scale, and the origin
vertex. -/
def c4Position : Vec3 := ⟨1, 0, 0⟩

def c4Rotation : PLQuaternion := ⟨3/5, 0, 0, 4/5⟩

def c4Scale : Vec3 := ⟨1, 1, 1⟩

/-- Four copies of the origin as an input vertex buffer. -/
def c4Vertices : List Vec3 := [⟨0, 0, 0⟩, ⟨0, 0, 0⟩, ⟨0, 0, 0⟩, ⟨0, 0, 0⟩]

def c4Indices : List ℤ := [0, 1, 2, 3, 0, 1]

/-- C5 witness input: a single-cell lattice with distinctive field values. -/
def c5Vox : PLVoxel :=
  { worldPosition := ⟨0, 0, 0⟩, beta := 1, absorptivity := 0,
    airPressure := 2, particleVelocityX := 3, particleVelocityY := 4,
    particleVelocityZ := 5 }

/-- A scene with one mesh registered (passes the no-mesh check). -/
def oneMeshScene : PL_SCENE := { freshScene with meshes := [sampleMesh] }

/-- C7 witness: voxelisation ongoing over a one-cell lattice (a lattice
from a previous, completed voxelisation is still stored). -/
def c7OngoingScene : PL_SCENE :=
  { meshes := [sampleMesh], listenerLocations := [], sourceLocations := [],
    voxels := { bounds := ⟨⟨-1/2, -1/2, -1/2⟩, ⟨1/2, 1/2, 1/2⟩⟩,
                size := (1, 1, 1), voxelSize := 1,
                voxels := [airVoxelAt ⟨0, 0, 0⟩ 0] },
    voxelThreadStatus := ThreadStatus.ongoing, voxelThreadJoinable := true }

/-- C7 witness: the same lattice after the worker finished. -/
def c7FinishedScene : PL_SCENE :=
  { c7OngoingScene with voxelThreadStatus := ThreadStatus.finished }

/-- C8 counterexample input: a scene with an empty lattice and the
voxeliser not running, queried at index `0`. -/
def c8Scene : PL_SCENE :=
  { meshes := [sampleMesh], listenerLocations := [], sourceLocations := [],
    voxels := emptyGrid, voxelThreadStatus := ThreadStatus.finished,
    voxelThreadJoinable := false }

/-- C9 counterexample input: a valid voxelise request issued while the
worker status is `Finished`. -/
def c9Scene : PL_SCENE :=
  { meshes := [sampleMesh], listenerLocations := [], sourceLocations := [],
    voxels := emptyGrid, voxelThreadStatus := ThreadStatus.finished,
    voxelThreadJoinable := true }

/-- C10 witness input: a scene holding a one-cell lattice. -/
def c10Scene : PL_SCENE :=
  { meshes := [], listenerLocations := [], sourceLocations := [],
    voxels := { bounds := ⟨⟨-1/2, -1/2, -1/2⟩, ⟨1/2, 1/2, 1/2⟩⟩,
                size := (1, 1, 1), voxelSize := 1,
                voxels := [airVoxelAt ⟨0, 0, 0⟩ 0] },
    voxelThreadStatus := ThreadStatus.finished, voxelThreadJoinable := true }

/-- The condition under which one mesh's pass of `FillVoxels` marks the
cell `cell` solid: the mesh AABB intersects the lattice bounds, the cell
is a candidate, and more than two of its nine sample points are inside. -/
def cellMarkedByMesh (insideTest : PL_MESH → Vec3 → Bool)
    (latticeBounds : AABB) (voxelSize : ℚ) (m : PL_MESH) (cell : PLVoxel) :
    Bool :=
  aabbIntersects latticeBounds (meshAABB m) &&
    voxelIsCandidate (meshAABB m) voxelSize cell &&
    decide (2 < numberOfPointsInside insideTest m voxelSize cell)

/-- Forget the pressure field (used to state that a kernel sub-step
touches nothing but pressure). -/
def erasePressure (c : PLVoxel) : PLVoxel := { c with airPressure := 0 }

/-! ## C6, C9 — the `Voxelise` entry: validation and driver transitions -/

/-- **C6**: `Voxelise` with no meshes registered returns `Generic`
(`PL_ERR`); with at least one mesh and any extent component smaller than
the cell size it returns `InvalidParam`; in both cases the scene (hence
the lattice) is unchanged and no worker thread is started. -/
theorem C6_voxelise_rejections (s : PL_SCENE) (size : Vec3) (voxelSize : ℚ) :
    (s.meshes = [] → voxelise s size voxelSize = (PL_ERR, s, false)) ∧
    (s.meshes ≠ [] →
      (size.x < voxelSize ∨ size.y < voxelSize ∨ size.z < voxelSize) →
      voxelise s size voxelSize = (PL_ERR_INVALID_PARAM, s, false)) := by
  constructor
  · intro hm
    unfold voxelise
    rw [if_pos (by simp [hm])]
  · intro hm hsz
    unfold voxelise
    rw [if_neg (by simpa using hm), if_pos hsz]

/-- Witness for C6 at concrete inputs: a fresh scene (no meshes) is
rejected with `PL_ERR`; a one-mesh scene with extent `(1,1,1)` and cell
size `2` is rejected with `PL_ERR_INVALID_PARAM`. -/
theorem C6_voxelise_rejections_witness :
    voxelise freshScene ⟨10, 10, 10⟩ 1 = (PL_ERR, freshScene, false) ∧
    voxelise oneMeshScene ⟨1, 1, 1⟩ 2 =
      (PL_ERR_INVALID_PARAM, oneMeshScene, false) :=
  ⟨(C6_voxelise_rejections freshScene ⟨10, 10, 10⟩ 1).1 rfl,
   (C6_voxelise_rejections oneMeshScene ⟨1, 1, 1⟩ 2).2 (by decide)
     (Or.inl (by norm_num))⟩

/-- **C9 counterexample**: a valid `Voxelise` request on a scene whose
worker status is `Finished` does *not* start a new voxelisation — the
"started a worker" component of the call is `false`, contradicting the
claim that the request is treated as fresh and a new voxelisation of the
given bounds is started. -/
theorem C9_finished_starts_no_worker_counterexample :
    (voxelise c9Scene ⟨10, 10, 10⟩ 1).2.2 = false ∧ false ≠ true := by
  constructor
  · rfl
  · decide

/-- **C9 (amended)**: for a request that passes validation, calling
`Voxelise` while the status is `Ongoing` returns success and changes
nothing, and calling it while the status is `Finished` joins the worker,
resets the status to `NotStarted` and returns success — but starts no new
voxelisation; the caller must invoke `Voxelise` again for a fresh run. -/
theorem C9_async_driver_transitions (s : PL_SCENE) (size : Vec3)
    (voxelSize : ℚ) (hm : s.meshes ≠ [])
    (hsz : ¬(size.x < voxelSize ∨ size.y < voxelSize ∨ size.z < voxelSize)) :
    (s.voxelThreadStatus = ThreadStatus.ongoing →
      voxelise s size voxelSize = (PL_OK, s, false)) ∧
    (s.voxelThreadStatus = ThreadStatus.finished →
      voxelise s size voxelSize =
        (PL_OK,
          { s with voxelThreadStatus := ThreadStatus.notStarted,
                   voxelThreadJoinable := false }, false)) := by
  unfold voxelise
  rw [if_neg (by simpa using hm), if_neg hsz]
  constructor
  · intro h; rw [h]
  · intro h; rw [h]

/-- Witness for C9 at concrete inputs: the `Ongoing` branch on
`c7OngoingScene`, and the `Finished` branch on `c9Scene`. -/
theorem C9_async_driver_transitions_witness :
    voxelise c7OngoingScene ⟨10, 10, 10⟩ 1 = (PL_OK, c7OngoingScene, false) ∧
    voxelise c9Scene ⟨10, 10, 10⟩ 1 =
      (PL_OK,
        { c9Scene with voxelThreadStatus := ThreadStatus.notStarted,
                       voxelThreadJoinable := false }, false) :=
  ⟨(C9_async_driver_transitions c7OngoingScene ⟨10, 10, 10⟩ 1 (by decide)
      (by norm_num)).1 rfl,
   (C9_async_driver_transitions c9Scene ⟨10, 10, 10⟩ 1 (by decide)
      (by norm_num)).2 rfl⟩

/-! ## C8 — classification of out-of-range indices -/

/-- **C8 counterexample**: `GetVoxelLocation` at index `0` on a scene with
an empty lattice (an out-of-range query index) returns `PL_ERR`
("Generic"), not `PL_ERR_INVALID_PARAM` as the claim states. -/
theorem C8_query_out_of_range_counterexample :
    getVoxelLocation c8Scene 0 = (PL_ERR, none) ∧
    PL_ERR ≠ PL_ERR_INVALID_PARAM := by
  constructor
  · rfl
  · decide

/-- **C8 (amended)**: an out-of-range index is classified as `Generic`
everywhere it is checked: `GetVoxelLocation` (when the voxeliser is not
`Ongoing`, since its `Ongoing` early-out precedes validation) and
`GetVoxelAbsorpivity` with an index at or past the voxel count return
`PL_ERR` with the out-parameter unwritten (a *negative* index is the one
case returning `InvalidParam`); `RemoveListenerLocation` and
`RemoveSourceLocation` with an out-of-range index return `PL_ERR` and
leave the scene unchanged; `RemoveMesh` performs no bounds check at all —
an out-of-range removal is undefined behaviour (`none`), not `Generic`. -/
theorem C8_out_of_range_classification (s : PL_SCENE) (i j k l m : ℤ) :
    (s.voxelThreadStatus ≠ ThreadStatus.ongoing → 0 ≤ i →
      (s.voxels.voxels.length : ℤ) ≤ i →
      getVoxelLocation s i = (PL_ERR, none)) ∧
    (0 ≤ j → (s.voxels.voxels.length : ℤ) ≤ j →
      getVoxelAbsorpivity s j = (PL_ERR, none)) ∧
    ((s.listenerLocations.length : ℤ) ≤ k →
      removeListenerLocation s k = (PL_ERR, s)) ∧
    ((s.sourceLocations.length : ℤ) ≤ l →
      removeSourceLocation s l = (PL_ERR, s)) ∧
    ((s.meshes.length : ℤ) ≤ m → removeMesh s m = none) := by
  refine ⟨fun hs h0 hge => ?_, fun h0 hge => ?_, fun hge => ?_,
    fun hge => ?_, fun hge => ?_⟩
  · unfold getVoxelLocation
    rw [if_neg hs, if_neg (by omega), if_pos hge]
  · unfold getVoxelAbsorpivity
    rw [if_neg (by omega), if_pos hge]
  · unfold removeListenerLocation
    rw [if_pos (Or.inr hge)]
  · unfold removeSourceLocation
    rw [if_pos (Or.inr hge)]
  · unfold removeMesh
    rw [if_neg (by omega)]

/-- Witness for C8 at concrete inputs: on `c8Scene` (empty lists, empty
lattice, worker finished) index `0` is out of range everywhere. -/
theorem C8_out_of_range_classification_witness :
    getVoxelLocation c8Scene 0 = (PL_ERR, none) ∧
    getVoxelAbsorpivity c8Scene 0 = (PL_ERR, none) ∧
    removeListenerLocation c8Scene 0 = (PL_ERR, c8Scene) ∧
    removeSourceLocation c8Scene 0 = (PL_ERR, c8Scene) ∧
    removeMesh c8Scene 1 = none := by
  have h := C8_out_of_range_classification c8Scene 0 0 0 0 1
  exact ⟨h.1 (by decide) (by decide) (by decide),
         h.2.1 (by decide) (by decide),
         h.2.2.1 (by decide),
         h.2.2.2.1 (by decide),
         h.2.2.2.2 (by decide)⟩

/-! ## C7 — queries while the voxeliser is running -/

/-- **C7**: while the voxeliser status is `Ongoing`, `GetVoxelsCount`,
`GetVoxelLocation` and `GetVoxelAbsorpivity` (given a valid out-pointer
and an index that is in range for the stored lattice) all return `PL_OK`
with a zero-valued output; once the worker has finished, `GetVoxelsCount`
returns the true voxel count `X·Y·Z`. -/
theorem C7_queries_zero_while_ongoing (s s' : PL_SCENE) (i : ℤ)
    (hs : s.voxelThreadStatus = ThreadStatus.ongoing) (h0 : 0 ≤ i)
    (hi : i < (s.voxels.voxels.length : ℤ))
    (hs' : s'.voxelThreadStatus = ThreadStatus.finished)
    (hwf : s'.voxels.voxels.length =
      s'.voxels.size.1 * s'.voxels.size.2.1 * s'.voxels.size.2.2) :
    getVoxelsCount s = (PL_OK, some 0) ∧
    getVoxelLocation s i = (PL_OK, some Vec3.zero) ∧
    getVoxelAbsorpivity s i = (PL_OK, some 0) ∧
    getVoxelsCount s' =
      (PL_OK,
        some (s'.voxels.size.1 * s'.voxels.size.2.1 * s'.voxels.size.2.2)) := by
  refine ⟨?_, ?_, ?_, ?_⟩
  · unfold getVoxelsCount
    rw [if_pos hs]
  · unfold getVoxelLocation
    rw [if_pos hs]
  · unfold getVoxelAbsorpivity
    rw [if_neg (by omega), if_neg (by omega), if_pos hs]
  · unfold getVoxelsCount
    rw [if_neg (by rw [hs']; decide), hwf]

/-- Witness for C7 at concrete inputs: `c7OngoingScene` holds a one-cell
lattice while the worker runs; `c7FinishedScene` is the same scene after
completion (count `1 = 1·1·1`). -/
theorem C7_queries_zero_while_ongoing_witness :
    getVoxelsCount c7OngoingScene = (PL_OK, some 0) ∧
    getVoxelLocation c7OngoingScene 0 = (PL_OK, some Vec3.zero) ∧
    getVoxelAbsorpivity c7OngoingScene 0 = (PL_OK, some 0) ∧
    getVoxelsCount c7FinishedScene = (PL_OK, some (1 * 1 * 1)) :=
  C7_queries_zero_while_ongoing c7OngoingScene c7FinishedScene 0
    (by decide) (by decide) (by decide) (by decide) (by decide)

/-! ## C4 — the mesh-ingestion transform -/

/-- The Eigen call chain `Identity().rotate(Q).translate(P).scale(S)`
post-multiplies at every step, so the assembled transform maps a vertex
`v` to `R(Q)·(S∘v + P)`: the translation is *rotated along with* the
vertex, unlike the claimed `P + R(Q)·(S∘v)`. -/
theorem transformVertex_eq (p : Vec3) (q : PLQuaternion) (s v : Vec3) :
    transformVertex p q s v = quatRotate q ((s.hadamard v).add p) := by
  cases p; cases q; cases s; cases v
  simp only [transformVertex, meshTransform, EigenAffine.identity,
    EigenAffine.rotate, EigenAffine.translate, EigenAffine.scale,
    EigenAffine.apply, Mat3.identity, Mat3.mul, Mat3.mulDiag, Mat3.mulVec,
    Mat3.col0, Mat3.col1, Mat3.col2, quatToRotationMatrix, quatRotate,
    Vec3.add, Vec3.dot, Vec3.hadamard, Vec3.zero, Vec3.mk.injEq]
  refine ⟨by ring, by ring, by ring⟩

/-- **C4 counterexample**: with translation `(1,0,0)`, the unit quaternion
`(3/5,0,0,4/5)` and identity scale, the origin vertex is stored as
`R·P = (-7/25, 24/25, 0)`, while the claimed transform
`P + R·(S∘v)` yields `(1,0,0)` — `AddAndConvertGameMesh` does not apply
`translate(P) · rotate(Q) · scale(S)`. -/
theorem C4_transform_order_counterexample :
    ((addAndConvertGameMesh freshScene c4Position c4Rotation c4Scale
        c4Vertices c4Indices).2.1.meshes.getD 0
        ⟨[], []⟩).vertices.getD 0 Vec3.zero = ⟨-7/25, 24/25, 0⟩ ∧
    claimTransformVertex c4Position c4Rotation c4Scale ⟨0, 0, 0⟩ =
      ⟨1, 0, 0⟩ ∧
    (⟨-7/25, 24/25, 0⟩ : Vec3) ≠ ⟨1, 0, 0⟩ := by
  refine ⟨?_, ?_, ?_⟩
  · have h1 : ((addAndConvertGameMesh freshScene c4Position c4Rotation
        c4Scale c4Vertices c4Indices).2.1.meshes.getD 0
        ⟨[], []⟩).vertices.getD 0 Vec3.zero =
        transformVertex c4Position c4Rotation c4Scale ⟨0, 0, 0⟩ := by
      simp [addAndConvertGameMesh, c4Vertices, c4Indices, freshScene,
        List.getD]
    rw [h1, transformVertex_eq]
    simp only [quatRotate, quatToRotationMatrix, Mat3.mulVec, Vec3.dot,
      Vec3.hadamard, Vec3.add, c4Position, c4Rotation, c4Scale,
      Vec3.mk.injEq]
    norm_num
  · simp only [claimTransformVertex, quatRotate, quatToRotationMatrix,
      Mat3.mulVec, Vec3.dot, Vec3.hadamard, Vec3.add, c4Position,
      c4Rotation, c4Scale, Vec3.mk.injEq]
    norm_num
  · intro h
    rw [Vec3.mk.injEq] at h
    norm_num at h

/-- **C4 (amended)**: `AddAndConvertGameMesh` transforms every input
vertex `v` by the matrix `T = rotate(Q) · translate(P) · scale(S)` (the
Eigen post-multiplication order of the source's call chain), i.e. each
stored vertex equals `R(Q) · (S∘v + P)`; on valid inputs the mesh is
appended and its index returned. -/
theorem C4_mesh_ingestion_transform (s : PL_SCENE) (p : Vec3)
    (q : PLQuaternion) (sc : Vec3) (vertices : List Vec3)
    (indices : List ℤ) (hv : 3 < vertices.length)
    (hi : 3 < indices.length) (hmod : indices.length % 3 = 0) :
    addAndConvertGameMesh s p q sc vertices indices =
      (PL_OK,
        { s with meshes := s.meshes ++
            [{ vertices :=
                 vertices.map (fun v => quatRotate q ((sc.hadamard v).add p)),
               indices := chunk3 indices }] },
        some s.meshes.length) := by
  unfold addAndConvertGameMesh
  rw [if_neg (by omega), if_neg (by omega), if_neg (by omega)]
  have hmap : vertices.map (transformVertex p q sc) =
      vertices.map (fun v => quatRotate q ((sc.hadamard v).add p)) :=
    List.map_congr_left (fun v _ => transformVertex_eq p q sc v)
  rw [hmap]

/-- Witness for C4 at concrete inputs: the four-vertex buffer of origins
with the C4 rotation/translation. -/
theorem C4_mesh_ingestion_transform_witness :
    addAndConvertGameMesh freshScene c4Position c4Rotation c4Scale
        c4Vertices c4Indices =
      (PL_OK,
        { freshScene with meshes := freshScene.meshes ++
            [{ vertices := c4Vertices.map
                 (fun v => quatRotate c4Rotation
                   ((c4Scale.hadamard v).add c4Position)),
               indices := chunk3 c4Indices }] },
        some freshScene.meshes.length) :=
  C4_mesh_ingestion_transform freshScene c4Position c4Rotation c4Scale
    c4Vertices c4Indices (by decide) (by decide) (by decide)

/-! ## C3 — `FillVoxels` characterization -/

theorem voxelIsCandidate_congr (mb : AABB) (h : ℚ) {c c' : PLVoxel}
    (hp : c.worldPosition = c'.worldPosition) :
    voxelIsCandidate mb h c = voxelIsCandidate mb h c' := by
  unfold voxelIsCandidate
  rw [hp]

theorem numberOfPointsInside_congr (it : PL_MESH → Vec3 → Bool)
    (m : PL_MESH) (h : ℚ) {c c' : PLVoxel}
    (hp : c.worldPosition = c'.worldPosition) :
    numberOfPointsInside it m h c = numberOfPointsInside it m h c' := by
  unfold numberOfPointsInside
  rw [hp]

theorem cellMarkedByMesh_congr (it : PL_MESH → Vec3 → Bool) (b : AABB)
    (h : ℚ) (m : PL_MESH) {c c' : PLVoxel}
    (hp : c.worldPosition = c'.worldPosition) :
    cellMarkedByMesh it b h m c = cellMarkedByMesh it b h m c' := by
  unfold cellMarkedByMesh
  rw [voxelIsCandidate_congr _ _ hp, numberOfPointsInside_congr it m h hp]

theorem markSolid_worldPosition (c : PLVoxel) :
    (markSolid c).worldPosition = c.worldPosition := rfl

theorem markSolid_idem (c : PLVoxel) : markSolid (markSolid c) = markSolid c :=
  rfl

theorem fillVoxelsMesh_length (it : PL_MESH → Vec3 → Bool) (b : AABB)
    (h : ℚ) (v : List PLVoxel) (m : PL_MESH) :
    (fillVoxelsMesh it b h v m).length = v.length := by
  unfold fillVoxelsMesh
  dsimp only
  split_ifs <;> simp

/-- The per-cell effect of the whole per-mesh loop of `FillVoxels`,
starting from an arbitrary cell vector `w`: cell `i` ends up marked solid
exactly when some mesh of the list claims it, and is untouched otherwise. -/
theorem foldl_fillVoxelsMesh_getVox (it : PL_MESH → Vec3 → Bool)
    (bounds : AABB) (h : ℚ) :
    ∀ (ms : List PL_MESH) (w : List PLVoxel) (i : ℕ), i < w.length →
      getVox (ms.foldl (fillVoxelsMesh it bounds h) w) i =
        if ms.any (fun m => cellMarkedByMesh it bounds h m (getVox w i))
        then markSolid (getVox w i) else getVox w i := by
  intro ms
  induction ms with
  | nil => intro w i hi; simp
  | cons m ms ih =>
    intro w i hi
    rw [List.foldl_cons, List.any_cons]
    have hlen' : (fillVoxelsMesh it bounds h w m).length = w.length :=
      fillVoxelsMesh_length it bounds h w m
    have hi' : i < (fillVoxelsMesh it bounds h w m).length := by omega
    rw [ih (fillVoxelsMesh it bounds h w m) i hi']
    by_cases h1 : aabbIntersects bounds (meshAABB m) = true
    · by_cases h2 :
        w.all (fun c => !(voxelIsCandidate (meshAABB m) h c)) = true
      · -- no candidate cells: the mesh is skipped, and cell i is not a
        -- candidate, so this mesh does not mark it
        have hw : fillVoxelsMesh it bounds h w m = w := by
          unfold fillVoxelsMesh
          rw [if_neg (by simp [h1]), if_pos (by simpa using h2)]
        have hcand : voxelIsCandidate (meshAABB m) h (getVox w i) = false := by
          have := (List.all_eq_true.mp h2) (getVox w i)
            (getD_mem_of_lt w i defaultPLVoxel hi)
          simpa using this
        have hm : cellMarkedByMesh it bounds h m (getVox w i) = false := by
          simp [cellMarkedByMesh, hcand]
        rw [hw, hm]
        simp
      · -- the mesh is processed: cell i is mapped through the marking step
        have hw : fillVoxelsMesh it bounds h w m =
            w.map (fun cell =>
              if voxelIsCandidate (meshAABB m) h cell then
                if 2 < numberOfPointsInside it m h cell then markSolid cell
                else cell
              else cell) := by
          unfold fillVoxelsMesh
          rw [if_neg (by simp [h1]), if_neg (by simpa using h2)]
        have hget : getVox (fillVoxelsMesh it bounds h w m) i =
            (fun cell =>
              if voxelIsCandidate (meshAABB m) h cell then
                if 2 < numberOfPointsInside it m h cell then markSolid cell
                else cell
              else cell) (getVox w i) := by
          rw [hw]
          exact getD_map_lt _ w i defaultPLVoxel defaultPLVoxel hi
        by_cases h3 : voxelIsCandidate (meshAABB m) h (getVox w i) = true
        · by_cases h4 : 2 < numberOfPointsInside it m h (getVox w i)
          · -- the mesh marks cell i solid
            have hmark : getVox (fillVoxelsMesh it bounds h w m) i =
                markSolid (getVox w i) := by
              rw [hget]
              simp only [h3, if_true, if_pos h4]
            have hmTrue : cellMarkedByMesh it bounds h m (getVox w i) = true := by
              simp [cellMarkedByMesh, h1, h3, h4]
            have hfun : (fun m' => cellMarkedByMesh it bounds h m'
                  (markSolid (getVox w i))) =
                (fun m' => cellMarkedByMesh it bounds h m' (getVox w i)) :=
              funext (fun m' => cellMarkedByMesh_congr it bounds h m'
                (markSolid_worldPosition (getVox w i)))
            rw [hmark, hfun, hmTrue]
            by_cases h5 :
                ms.any (fun m' => cellMarkedByMesh it bounds h m'
                  (getVox w i)) = true
            · rw [h5]
              simp [markSolid_idem]
            · simp only [Bool.not_eq_true] at h5
              rw [h5]
              simp
          · -- candidate but too few points inside: untouched
            have huntouched : getVox (fillVoxelsMesh it bounds h w m) i =
                getVox w i := by
              rw [hget]
              simp only [h3, if_true, if_neg h4]
            have hm : cellMarkedByMesh it bounds h m (getVox w i) = false := by
              simp [cellMarkedByMesh, h4]
            rw [huntouched, hm]
            simp
        · -- not a candidate: untouched
          simp only [Bool.not_eq_true] at h3
          have huntouched : getVox (fillVoxelsMesh it bounds h w m) i =
              getVox w i := by
            rw [hget]
            simp only [h3, if_false, Bool.false_eq_true]
          have hm : cellMarkedByMesh it bounds h m (getVox w i) = false := by
            simp [cellMarkedByMesh, h3]
          rw [huntouched, hm]
          simp
    · -- the mesh AABB misses the lattice: skipped, and it cannot mark
      simp only [Bool.not_eq_true] at h1
      have hw : fillVoxelsMesh it bounds h w m = w := by
        unfold fillVoxelsMesh
        rw [if_pos (by simp [h1])]
      have hm : cellMarkedByMesh it bounds h m (getVox w i) = false := by
        simp [cellMarkedByMesh, h1]
      rw [hw, hm]
      simp

/-- **C3 counterexample**: `FillVoxels` does *not* set absorptivity to
zero in its initialisation pass — it only sets `beta = 1`.  On a lattice
whose single cell already carries absorptivity `3/4`, running `FillVoxels`
with no meshes leaves the absorptivity at `3/4`, while the claim demands
it be reset to `0`. -/
theorem C3_absorptivity_not_reset_counterexample :
    ((fillVoxels noneInside [] c3Grid).voxels.getD 0
      defaultPLVoxel).absorptivity = 3/4 ∧ (3/4 : ℚ) ≠ 0 := by
  constructor
  · rfl
  · norm_num

/-- **C3 (amended)**: `FillVoxels` first sets every cell's `beta` to `1`,
leaving its absorptivity unchanged; then a cell ends up solid
(`beta = 0`, `absorptivity = 3/4`) if and only if some mesh whose AABB
intersects the lattice bounds has the cell as a candidate with at least 3
of its 9 sample points flagged inside; every other cell keeps `beta = 1`
and its prior absorptivity.  (In the engine's only call path the lattice
is freshly value-initialised, so that prior absorptivity is `0`.) -/
theorem C3_fillVoxels_characterization (it : PL_MESH → Vec3 → Bool)
    (ms : List PL_MESH) (g : PL_VOXEL_GRID) (i : ℕ)
    (hi : i < g.voxels.length) :
    getVox (fillVoxels it ms g).voxels i =
      if ms.any (fun m => cellMarkedByMesh it g.bounds g.voxelSize m
          { getVox g.voxels i with beta := 1 }) then
        { getVox g.voxels i with beta := 0, absorptivity := 3/4 }
      else { getVox g.voxels i with beta := 1 } := by
  unfold fillVoxels
  dsimp only
  have hinit : getVox (g.voxels.map (fun v => { v with beta := 1 })) i =
      { getVox g.voxels i with beta := 1 } :=
    getD_map_lt _ g.voxels i defaultPLVoxel defaultPLVoxel hi
  rw [foldl_fillVoxelsMesh_getVox it g.bounds g.voxelSize ms _ i
    (by simpa using hi), hinit]
  rfl

/-- Witness for C3 at concrete inputs: the one-cell air lattice with a
mesh and the all-inside occupancy oracle. -/
theorem C3_fillVoxels_characterization_witness :
    getVox (fillVoxels allInside [sampleMesh] c3WitnessGrid).voxels 0 =
      if [sampleMesh].any (fun m => cellMarkedByMesh allInside
          c3WitnessGrid.bounds c3WitnessGrid.voxelSize m
          { getVox c3WitnessGrid.voxels 0 with beta := 1 }) then
        { getVox c3WitnessGrid.voxels 0 with
            beta := 0
            absorptivity := 3/4 }
      else { getVox c3WitnessGrid.voxels 0 with beta := 1 } :=
  C3_fillVoxels_characterization allInside [sampleMesh] c3WitnessGrid 0
    (by decide)

/-! ## C5 — the pressure sub-step is the claimed pointwise update -/

theorem set_of_length_le {α : Type} (l : List α) (i : ℕ) (a : α)
    (h : l.length ≤ i) : l.set i a = l := by
  induction l generalizing i with
  | nil => rfl
  | cons b t ih =>
    cases i with
    | zero => simp at h
    | succ n =>
      simp only [List.set]
      rw [ih n (by simpa using h)]

theorem mem_cellTriples {X Y Z : ℕ} {t : ℕ × ℕ × ℕ} :
    t ∈ cellTriples X Y Z ↔ t.1 < X ∧ t.2.1 < Y ∧ t.2.2 < Z := by
  obtain ⟨a, b, c⟩ := t
  simp [cellTriples, List.mem_product]

theorem nodup_cellTriples_idx (X Y Z : ℕ) :
    ((cellTriples X Y Z).map
      (fun t => threeDimToOneDim t.1 t.2.1 t.2.2 X Y)).Nodup := by
  apply List.Nodup.map_on
  · intro t ht t' ht' heq
    rw [mem_cellTriples] at ht ht'
    obtain ⟨e1, e2, e3⟩ :=
      threeDimToOneDim_inj ht.1 ht.2.1 ht'.1 ht'.2.1 heq
    exact Prod.ext e1 (Prod.ext e2 e3)
  · exact (List.nodup_range X).product
      ((List.nodup_range Y).product (List.nodup_range Z))

theorem pressureCellValue_congr (K : ℚ) (X Y Z : ℕ) (v w : List PLVoxel)
    (x y z : ℕ)
    (hcur : getVox v (threeDimToOneDim x y z X Y) =
      getVox w (threeDimToOneDim x y z X Y))
    (hvel : ∀ j, erasePressure (getVox v j) = erasePressure (getVox w j)) :
    pressureCellValue K X Y Z v x y z =
      pressureCellValue K X Y Z w x y z := by
  have hnx : (if X ≤ x + 1 then defaultPLVoxel else
        getVox v (threeDimToOneDim (x + 1) y z X Y)).particleVelocityX =
      (if X ≤ x + 1 then defaultPLVoxel else
        getVox w (threeDimToOneDim (x + 1) y z X Y)).particleVelocityX := by
    split_ifs with hc
    · rfl
    · have h' := congrArg PLVoxel.particleVelocityX
        (hvel (threeDimToOneDim (x + 1) y z X Y))
      simpa [erasePressure] using h'
  have hny : (if Y ≤ y + 1 then defaultPLVoxel else
        getVox v (threeDimToOneDim x (y + 1) z X Y)).particleVelocityY =
      (if Y ≤ y + 1 then defaultPLVoxel else
        getVox w (threeDimToOneDim x (y + 1) z X Y)).particleVelocityY := by
    split_ifs with hc
    · rfl
    · have h' := congrArg PLVoxel.particleVelocityY
        (hvel (threeDimToOneDim x (y + 1) z X Y))
      simpa [erasePressure] using h'
  have hnz : (if Z ≤ z + 1 then defaultPLVoxel else
        getVox v (threeDimToOneDim x y (z + 1) X Y)).particleVelocityZ =
      (if Z ≤ z + 1 then defaultPLVoxel else
        getVox w (threeDimToOneDim x y (z + 1) X Y)).particleVelocityZ := by
    split_ifs with hc
    · rfl
    · have h' := congrArg PLVoxel.particleVelocityZ
        (hvel (threeDimToOneDim x y (z + 1) X Y))
      simpa [erasePressure] using h'
  unfold pressureCellValue
  dsimp only
  rw [hcur, hnx, hny, hnz]

theorem pressureCellUpdate_length (K : ℚ) (X Y Z : ℕ) (vox : List PLVoxel)
    (x y z : ℕ) :
    (pressureCellUpdate K X Y Z vox x y z).length = vox.length := by
  unfold pressureCellUpdate
  simp

theorem getVox_pressureCellUpdate_ne (K : ℚ) (X Y Z : ℕ)
    (vox : List PLVoxel) (x y z j : ℕ)
    (hne : threeDimToOneDim x y z X Y ≠ j) :
    getVox (pressureCellUpdate K X Y Z vox x y z) j = getVox vox j := by
  unfold pressureCellUpdate getVox
  exact getD_set_ne vox _ _ hne

theorem getVox_pressureCellUpdate_self (K : ℚ) (X Y Z : ℕ)
    (vox : List PLVoxel) (x y z : ℕ)
    (hlt : threeDimToOneDim x y z X Y < vox.length) :
    getVox (pressureCellUpdate K X Y Z vox x y z)
      (threeDimToOneDim x y z X Y) = pressureCellValue K X Y Z vox x y z := by
  unfold pressureCellUpdate getVox
  exact getD_set_self vox _ _ _ hlt

theorem erasePressure_pressureCellValue (K : ℚ) (X Y Z : ℕ)
    (vox : List PLVoxel) (x y z : ℕ) :
    erasePressure (pressureCellValue K X Y Z vox x y z) =
      erasePressure (getVox vox (threeDimToOneDim x y z X Y)) := rfl

theorem erasePressure_pressureCellUpdate (K : ℚ) (X Y Z : ℕ)
    (vox : List PLVoxel) (x y z j : ℕ) :
    erasePressure (getVox (pressureCellUpdate K X Y Z vox x y z) j) =
      erasePressure (getVox vox j) := by
  by_cases hj : threeDimToOneDim x y z X Y = j
  · subst hj
    by_cases hlt : threeDimToOneDim x y z X Y < vox.length
    · rw [getVox_pressureCellUpdate_self K X Y Z vox x y z hlt,
        erasePressure_pressureCellValue]
    · unfold pressureCellUpdate
      rw [set_of_length_le vox _ _ (by omega)]
  · rw [getVox_pressureCellUpdate_ne K X Y Z vox x y z j hj]

/-- Invariant of the sequential pressure loop: folding the in-place cell
update over a list of in-range triples with pairwise-distinct flat
indices (i) preserves the vector length, (ii) changes no field but the
pressure, (iii) leaves unvisited cells alone, and (iv) writes to each
visited cell exactly the pointwise update computed from the *initial*
state — the in-place loop implements the simultaneous update because the
divergence reads only neighbour velocities, which the loop never writes. -/
theorem pressureFold_props (K : ℚ) (X Y Z : ℕ) (L : List (ℕ × ℕ × ℕ)) :
    ∀ (v0 : List PLVoxel),
      (∀ t ∈ L, t.1 < X ∧ t.2.1 < Y ∧ t.2.2 < Z) →
      ((L.map (fun t => threeDimToOneDim t.1 t.2.1 t.2.2 X Y)).Nodup) →
      v0.length = X * Y * Z →
      ((L.foldl (fun v t => pressureCellUpdate K X Y Z v t.1 t.2.1 t.2.2)
          v0).length = v0.length ∧
       (∀ j, erasePressure (getVox (L.foldl
          (fun v t => pressureCellUpdate K X Y Z v t.1 t.2.1 t.2.2) v0) j) =
          erasePressure (getVox v0 j)) ∧
       (∀ j, (∀ t ∈ L, threeDimToOneDim t.1 t.2.1 t.2.2 X Y ≠ j) →
          getVox (L.foldl
            (fun v t => pressureCellUpdate K X Y Z v t.1 t.2.1 t.2.2) v0) j =
          getVox v0 j) ∧
       (∀ t ∈ L, getVox (L.foldl
          (fun v t => pressureCellUpdate K X Y Z v t.1 t.2.1 t.2.2) v0)
          (threeDimToOneDim t.1 t.2.1 t.2.2 X Y) =
          pressureCellValue K X Y Z v0 t.1 t.2.1 t.2.2)) := by
  induction L with
  | nil =>
    intro v0 _ _ _
    exact ⟨rfl, fun j => rfl, fun j _ => rfl, fun t ht => absurd ht (by simp)⟩
  | cons t L ih =>
    intro v0 hmem hnodup hlen
    have hbound := hmem t (List.mem_cons_self t L)
    have hidx : threeDimToOneDim t.1 t.2.1 t.2.2 X Y < v0.length := by
      rw [hlen]
      exact threeDimToOneDim_lt hbound.1 hbound.2.1 hbound.2.2
    have hnodup' :
        ((L.map (fun t => threeDimToOneDim t.1 t.2.1 t.2.2 X Y)).Nodup) := by
      rw [List.map_cons, List.nodup_cons] at hnodup
      exact hnodup.2
    have hhead : ∀ t' ∈ L,
        threeDimToOneDim t'.1 t'.2.1 t'.2.2 X Y ≠
          threeDimToOneDim t.1 t.2.1 t.2.2 X Y := by
      intro t' ht' heq
      rw [List.map_cons, List.nodup_cons] at hnodup
      exact hnodup.1 (heq ▸ List.mem_map_of_mem _ ht')
    have hlen1 : (pressureCellUpdate K X Y Z v0 t.1 t.2.1 t.2.2).length =
        X * Y * Z := by
      rw [pressureCellUpdate_length, hlen]
    obtain ⟨ihlen, ihep, ihuntouched, ihvisited⟩ :=
      ih (pressureCellUpdate K X Y Z v0 t.1 t.2.1 t.2.2)
        (fun t' ht' => hmem t' (List.mem_cons_of_mem t ht')) hnodup' hlen1
    rw [List.foldl_cons]
    refine ⟨?_, ?_, ?_, ?_⟩
    · rw [ihlen, pressureCellUpdate_length]
    · intro j
      rw [ihep j, erasePressure_pressureCellUpdate]
    · intro j hj
      rw [ihuntouched j (fun t' ht' => hj t' (List.mem_cons_of_mem t ht')),
        getVox_pressureCellUpdate_ne K X Y Z v0 t.1 t.2.1 t.2.2 j
          (hj t (List.mem_cons_self t L))]
    · intro t' ht'
      rcases List.mem_cons.mp ht' with heq | hmem'
      · subst heq
        rw [ihuntouched _ hhead]
        exact getVox_pressureCellUpdate_self K X Y Z v0 t'.1 t'.2.1 t'.2.2
          hidx
      · rw [ihvisited t' hmem']
        refine pressureCellValue_congr K X Y Z _ v0 t'.1 t'.2.1 t'.2.2 ?_
          (fun j => erasePressure_pressureCellUpdate K X Y Z v0
            t.1 t.2.1 t.2.2 j)
        exact getVox_pressureCellUpdate_ne K X Y Z v0 t.1 t.2.1 t.2.2 _
          (fun heq => hhead t' hmem' heq.symm)

/-- **C5**: in every pressure sub-step, each in-range cell `(x,y,z)` is
assigned `P ← β · (P − K · ((Vx[x+1]−Vx[x]) + (Vy[y+1]−Vy[y]) +
(Vz[z+1]−Vz[z])))`, computed from the pre-step state, where a neighbour
read past the lattice edge yields the zero-initialised ghost cell; all
other fields of the cell are unchanged. -/
theorem C5_pressure_update_pointwise (K : ℚ) (X Y Z : ℕ)
    (vox : List PLVoxel) (hlen : vox.length = X * Y * Z) (x y z : ℕ)
    (hx : x < X) (hy : y < Y) (hz : z < Z) :
    getVox (pressureStep K X Y Z vox) (threeDimToOneDim x y z X Y) =
      { getVox vox (threeDimToOneDim x y z X Y) with
          airPressure :=
            (getVox vox (threeDimToOneDim x y z X Y)).beta *
              ((getVox vox (threeDimToOneDim x y z X Y)).airPressure -
                K * (((if X ≤ x + 1 then defaultPLVoxel else
                        getVox vox (threeDimToOneDim (x + 1) y z X Y)).particleVelocityX -
                      (getVox vox (threeDimToOneDim x y z X Y)).particleVelocityX) +
                    ((if Y ≤ y + 1 then defaultPLVoxel else
                        getVox vox (threeDimToOneDim x (y + 1) z X Y)).particleVelocityY -
                      (getVox vox (threeDimToOneDim x y z X Y)).particleVelocityY) +
                    (if Z ≤ z + 1 then defaultPLVoxel else
                        getVox vox (threeDimToOneDim x y (z + 1) X Y)).particleVelocityZ -
                      (getVox vox (threeDimToOneDim x y z X Y)).particleVelocityZ)) } := by
  have h := (pressureFold_props K X Y Z (cellTriples X Y Z) vox
    (fun t ht => mem_cellTriples.mp ht) (nodup_cellTriples_idx X Y Z)
    hlen).2.2.2 (x, y, z) (mem_cellTriples.mpr ⟨hx, hy, hz⟩)
  exact h

/-- Witness for C5 at a concrete input: a single-cell lattice with
pressure `2`, velocities `(3,4,5)`, `β = 1`, `K = 1`; all three neighbour
reads are ghosts, so the divergence is `−12` and the new pressure `14`. -/
theorem C5_pressure_update_pointwise_witness :
    getVox (pressureStep 1 1 1 1 [c5Vox]) 0 = { c5Vox with airPressure := 14 } := by
  have h := C5_pressure_update_pointwise 1 1 1 1 [c5Vox] rfl 0 0 0
    (by decide) (by decide) (by decide)
  rw [show threeDimToOneDim 0 0 0 1 1 = 0 from rfl] at h
  rw [h]
  norm_num [getVox, List.getD, c5Vox, defaultPLVoxel]

/-! ## C1 — the Y/Z velocity updates are commented out -/

/-- **C1 (code bug)**: one full kernel step of `PL_SCENE::Simulate` on the
`1 × 2 × 1` lattice `c1Vox` (pure pressure gradient along Y, `K = 1`,
zero pulse) leaves `ParticleVelocityY` of cell `(0,1,0)` at `0`, because
the Y-velocity block (lines 554–586) is commented out; the very update
that block would perform — mandated by the claim and the spec — assigns
it `β·β·(V_y − K·(P(this) − P(prev))) = 1 ≠ 0`. -/
theorem C1_y_velocity_not_updated :
    (Option.map (fun v => (getVox v 1).particleVelocityY)
      (simulateStep 1 zeroPulse 1 2 1 0 c1Vox) = some 0) ∧
    (getVox (velocityStepYCommented 1 1 2 1 (pressureStep 1 1 2 1 c1Vox))
      1).particleVelocityY = 1 ∧ ((1 : ℚ) ≠ 0) := by
  have ht : cellTriples 1 2 1 = [(0, 0, 0), (0, 1, 0)] := rfl
  have htx : cellTriplesFromX1 1 2 1 = [] := rfl
  have hty : (List.range 1) ×ˢ ((List.range' 1 (2 - 1)) ×ˢ (List.range 1)) =
    [(0, 1, 0)] := rfl
  refine ⟨?_, ?_, by norm_num⟩
  · simp only [simulateStep, pressureStep, velocityStepX, ht, htx,
      List.foldl_cons, List.foldl_nil, pressureCellUpdate, pressureCellValue,
      addPulse, getVox, threeDimToOneDim, c1Vox, airVoxelAt, zeroPulse,
      defaultPLVoxel]
    norm_num [List.getD, List.set]
  · simp only [velocityStepYCommented, velocityCellValueYCommented,
      pressureStep, ht, hty, List.foldl_cons, List.foldl_nil,
      pressureCellUpdate, pressureCellValue, getVox, threeDimToOneDim,
      c1Vox, airVoxelAt, defaultPLVoxel]
    norm_num [List.getD, List.set]

/-! ## C2 — pulse injection goes to cell 0, not the source cell -/

/-- **C2 (code bug)**: on `c2Scene` — a `2 × 1 × 1` all-air lattice whose
*only registered source location* `(1,0,0)` is the centre of cell `1` —
one `Simulate` step with unit pulse adds the sample to cell `0`
(pressure `1`) and to *no other* cell (cell `1` stays at `0`): the
injection line is `Voxels.Voxels[0].AirPressure += Pulse[t]`, hard-coded
to flat index `0` and independent of `SourceLocations`. -/
theorem C2_pulse_injected_at_cell_zero :
    (Option.map (fun r => (getVox r.2.voxels.voxels 0).airPressure)
      (simulate 1 1 onesPulse c2Scene) = some 1) ∧
    (Option.map (fun r => (getVox r.2.voxels.voxels 1).airPressure)
      (simulate 1 1 onesPulse c2Scene) = some 0) ∧
    c2Scene.sourceLocations = [⟨1, 0, 0⟩] ∧
    (getVox c2Scene.voxels.voxels 1).worldPosition = ⟨1, 0, 0⟩ ∧
    (getVox c2Scene.voxels.voxels 0).worldPosition ≠ ⟨1, 0, 0⟩ := by
  have hr : List.range 1 = [0] := rfl
  have ht : cellTriples 2 1 1 = [(0, 0, 0), (1, 0, 0)] := rfl
  have htx : cellTriplesFromX1 2 1 1 = [(1, 0, 0)] := rfl
  refine ⟨?_, ?_, rfl, rfl, by decide⟩
  · simp only [simulate, hr, List.foldlM_cons, List.foldlM_nil,
      simulateStep, pressureStep, velocityStepX, ht, htx, List.foldl_cons,
      List.foldl_nil, pressureCellUpdate, pressureCellValue,
      velocityCellUpdateX, velocityCellValueX, addPulse, getVox,
      threeDimToOneDim, c2Scene, airVoxelAt, onesPulse, defaultPLVoxel,
      resetVoxel, List.map]
    norm_num [List.getD, List.set]
  · simp only [simulate, hr, List.foldlM_cons, List.foldlM_nil,
      simulateStep, pressureStep, velocityStepX, ht, htx, List.foldl_cons,
      List.foldl_nil, pressureCellUpdate, pressureCellValue,
      velocityCellUpdateX, velocityCellValueX, addPulse, getVox,
      threeDimToOneDim, c2Scene, airVoxelAt, onesPulse, defaultPLVoxel,
      resetVoxel, List.map]
    norm_num [List.getD, List.set]

/-! ## C10 — `Simulate` validates nothing -/

theorem foldl_length_preserved {β : Type}
    (f : List PLVoxel → β → List PLVoxel)
    (hf : ∀ v b, (f v b).length = v.length) :
    ∀ (L : List β) (v : List PLVoxel), (L.foldl f v).length = v.length := by
  intro L
  induction L with
  | nil => intro v; rfl
  | cons b L ih =>
    intro v
    rw [List.foldl_cons, ih, hf]

theorem pressureStep_length (K : ℚ) (X Y Z : ℕ) (v : List PLVoxel) :
    (pressureStep K X Y Z v).length = v.length := by
  unfold pressureStep
  exact foldl_length_preserved
    (fun v (t : ℕ × ℕ × ℕ) => pressureCellUpdate K X Y Z v t.1 t.2.1 t.2.2)
    (fun v t => pressureCellUpdate_length K X Y Z v t.1 t.2.1 t.2.2)
    (cellTriples X Y Z) v

theorem velocityStepX_length (K : ℚ) (X Y Z : ℕ) (v : List PLVoxel) :
    (velocityStepX K X Y Z v).length = v.length := by
  unfold velocityStepX
  exact foldl_length_preserved
    (fun v (t : ℕ × ℕ × ℕ) => velocityCellUpdateX K X Y v t.1 t.2.1 t.2.2)
    (fun v t => by unfold velocityCellUpdateX; simp)
    (cellTriplesFromX1 X Y Z) v

theorem simulateStep_some (K : ℚ) (pulse : ℕ → ℚ) (X Y Z : ℕ) (t : ℕ)
    (vox : List PLVoxel) (h : 0 < vox.length) :
    ∃ w, simulateStep K pulse X Y Z t vox = some w ∧
      w.length = vox.length := by
  unfold simulateStep
  dsimp only
  have hl : (velocityStepX K X Y Z (pressureStep K X Y Z vox)).length =
      vox.length := by
    rw [velocityStepX_length, pressureStep_length]
  rw [if_neg (by omega)]
  refine ⟨_, rfl, ?_⟩
  unfold addPulse
  simp [hl]

theorem foldlM_simulateStep_some (K : ℚ) (pulse : ℕ → ℚ) (X Y Z : ℕ) :
    ∀ (L : List ℕ) (v : List PLVoxel), 0 < v.length →
      ∃ w, (L.foldlM (fun v t => simulateStep K pulse X Y Z t v) v) =
        some w ∧ w.length = v.length := by
  intro L
  induction L with
  | nil => intro v hv; exact ⟨v, rfl, rfl⟩
  | cons t L ih =>
    intro v hv
    obtain ⟨w1, hw1, hlen1⟩ := simulateStep_some K pulse X Y Z t v hv
    obtain ⟨w2, hw2, hlen2⟩ := ih w1 (by omega)
    refine ⟨w2, ?_, by omega⟩
    rw [List.foldlM_cons, hw1]
    simpa using hw2

/-- **C10 counterexample**: on a fresh scene (zero meshes, zero listener
locations, zero source locations, no lattice) `Simulate` does *not*
return `OK` — the pulse injection `Voxels.Voxels[0]` indexes an empty
`std::vector` (undefined behaviour, modelled `none`), so the claim's
"for every scene state … returns OK" fails at exactly the scene state the
claim singles out. -/
theorem C10_simulate_empty_scene_counterexample :
    simulate 1 1 onesPulse freshScene = none := rfl

/-- **C10 (amended)**: `Simulate` performs no precondition validation and
can never return `InvalidParam` or `Generic`: whatever it returns is
`PL_OK`, and on every scene whose lattice is non-empty — including scenes
with zero meshes, zero listener locations and zero source locations — it
joins the worker, runs all configured time steps and returns `PL_OK`.
(With an *empty* lattice the pulse injection indexes out of bounds
instead of returning an error code.) -/
theorem C10_simulate_no_validation (timeSteps : ℕ) (K : ℚ)
    (pulse : ℕ → ℚ) (s : PL_SCENE) :
    (∀ r s', simulate timeSteps K pulse s = some (r, s') → r = PL_OK) ∧
    (0 < s.voxels.voxels.length →
      ∃ s', simulate timeSteps K pulse s = some (PL_OK, s')) := by
  constructor
  · intro r s' h
    unfold simulate at h
    dsimp only at h
    rcases hfold : (List.range timeSteps).foldlM
        (fun v t => simulateStep K pulse s.voxels.size.1 s.voxels.size.2.1
          s.voxels.size.2.2 t v) (s.voxels.voxels.map resetVoxel)
      with _ | vT
    · rw [hfold] at h
      exact absurd h (by simp)
    · rw [hfold] at h
      simp only [Option.some.injEq, Prod.mk.injEq] at h
      exact h.1.symm
  · intro hpos
    obtain ⟨w, hw, _⟩ := foldlM_simulateStep_some K pulse s.voxels.size.1
      s.voxels.size.2.1 s.voxels.size.2.2 (List.range timeSteps)
      (s.voxels.voxels.map resetVoxel) (by simpa using hpos)
    unfold simulate
    dsimp only
    rw [hw]
    exact ⟨_, rfl⟩

/-- Witness for C10 at a concrete input: `c10Scene` has no meshes, no
listeners and no sources, but a one-cell lattice: `Simulate` succeeds. -/
theorem C10_simulate_no_validation_witness :
    ∃ s', simulate 1 1 onesPulse c10Scene = some (PL_OK, s') :=
  (C10_simulate_no_validation 1 1 onesPulse c10Scene).2 (by decide)
